import Mathlib

/-
Verification of the frontend RPC handler layer of codechain-agent-hub
(src/frontend/api.rs).

The handlers are embedded as pure Lean functions.  A `Context` carries the
behaviour of the two collaborator services (the DB-facing service and the
agent-facing service) as pure data: reads are fields, and a remote agent is a
record of response values for each shell command.  Every handler returns its
`Result` value together with an explicit trace of the side effects it issued
(remote shell commands and `save_start_option` writes), in issue order; this
makes "performs zero remote calls" and "persists if and only if" statable.
The thread-local log-id counter and the random generator used by
`create_dummy_log` are threaded explicitly: the counter as an `Int` state, the
generator as a stream of natural numbers consumed four values per log entry.
-/

namespace AgentHub

/-- Modelled from the spec: the RPCError taxonomy of section 7
(`MethodNotFound`, `InvalidParams`, `AgentNotFound`, `AgentError` wrapping a
cause, `Internal`); the enum itself lives in src/rpc.rs, which is not part of
the sources. -/
inductive RPCError where
  | MethodNotFound
  | InvalidParams
  | AgentNotFound
  | AgentError (cause : String)
  | Internal (message : String)
  deriving DecidableEq, Repr

/-- Modelled from the spec: the structured start command body `{env, args,
target}` (sections 4.3 and 6); the struct lives in src/common_rpc_types.rs,
which is not part of the sources. -/
structure ShellStartCodeChainRequest where
  env : String
  args : String
  target : String
  deriving DecidableEq, Repr

/-- The update command body, with fields as constructed in
`node_update` (api.rs lines 99-103): env, args and a commit hash. -/
structure ShellUpdateCodeChainRequest where
  env : String
  args : String
  commit_hash : String
  deriving DecidableEq, Repr

/-- The stored StartOption for a node, as read back through
`get_agent_extra`: api.rs lines 100-101 access fields `prev_env` and
`prev_args` of the extra record. -/
structure AgentExtra where
  prev_env : String
  prev_args : String
  deriving DecidableEq, Repr

/-- Modelled from the spec: a node/agent state row owned by the DB
collaborator (section 3: identity, status, running commit hash); the concrete
struct lives in src/frontend/types.rs, which is not part of the sources. -/
structure AgentState where
  name : String
  status : String
  commit : String
  deriving DecidableEq, Repr

/-- Modelled from the spec: a connection edge between two node identities
(section 3); concrete struct not part of the sources. -/
structure Connection where
  node_a : String
  node_b : String
  deriving DecidableEq, Repr

/-- Modelled from the spec: the per-node query result returned by the DB
collaborator's `getAgentQueryResult(name)`; concrete struct not part of the
sources. -/
structure AgentQueryResult where
  name : String
  status : String
  deriving DecidableEq, Repr

/-- The behaviour of one resolved remote agent: the outcome of each shell
command it can be sent (the `SendAgentRPC` trait of src/agent, not part of
the sources; the outcomes the handlers consume are `Result` values). -/
structure Agent where
  shell_start_codechain : ShellStartCodeChainRequest → Except RPCError Unit
  shell_stop_codechain : Except RPCError Unit
  shell_update_codechain : ShellUpdateCodeChainRequest → Except RPCError Unit
  shell_get_codechain_log : Except RPCError String

/-- One observable side effect issued by a handler: a remote shell command
sent to a named agent, or a `save_start_option` write to the DB collaborator. -/
inductive Event where
  | shellStart (name : String) (req : ShellStartCodeChainRequest)
  | shellStop (name : String)
  | shellUpdate (name : String) (req : ShellUpdateCodeChainRequest)
  | shellGetLog (name : String)
  | saveStartOption (name : String) (env : String) (args : String)
  deriving DecidableEq, Repr

/-- Whether an event is a `save_start_option` DB write. -/
def Event.isSave : Event → Bool
  | Event.saveStartOption _ _ _ => true
  | _ => false

/-- Whether an event is a remote shell command (anything but a DB write). -/
def Event.isRemote (e : Event) : Bool := !e.isSave

/-- The read surface of the DB collaborator consumed by the handlers
(spec section 6): `getAgentsState`, `getConnections`,
`getAgentQueryResult(name)`, `getAgentExtra(name)`.  The one write,
`saveStartOption`, is recorded in the event trace instead. -/
structure DbService where
  get_agents_state : List AgentState
  get_connections : List Connection
  get_agent_query_result : String → Option AgentQueryResult
  get_agent_extra : String → Option AgentExtra

/-- The agent-service collaborator: `getAgent(name) -> Option<AgentHandle>`. -/
structure AgentService where
  get_agent : String → Option Agent

/-- The per-request context bundling the two collaborators (types.rs
`Context`, with `db_service` and `agent_service` as used in api.rs). -/
structure Context where
  db_service : DbService
  agent_service : AgentService

/-- A handler outcome: the RPC `Result` plus the trace of issued effects. -/
abbrev RPCResult (α : Type) := Except RPCError α × List Event

/-- Modelled from the spec: the dashboard presentation shape of a node;
`DashboardNode::from_db_state` lives in types.rs, not part of the sources. -/
structure DashboardNode where
  name : String
  status : String
  commit : String
  deriving DecidableEq, Repr

/-- Modelled from the spec: presentation mapping of one agent state. -/
def DashboardNode.from_db_state (a : AgentState) : DashboardNode :=
  { name := a.name, status := a.status, commit := a.commit }

/-- Modelled from the spec: the presentation shape of a connection. -/
structure NodeConnection where
  node_a : String
  node_b : String
  deriving DecidableEq, Repr

/-- Modelled from the spec: presentation mapping of one connection. -/
def NodeConnection.from_connection (c : Connection) : NodeConnection :=
  { node_a := c.node_a, node_b := c.node_b }

/-- The `dashboard_getNetwork` response: a nodes sequence and a connections
sequence. -/
structure DashboardGetNetworkResponse where
  nodes : List DashboardNode
  connections : List NodeConnection
  deriving DecidableEq, Repr

/-- Modelled from the spec: the `node_getInfo` response assembled by
`NodeGetInfoResponse::from_db_state(&agent_query_result, &extra)`; its exact
presentation fields live in types.rs, not part of the sources, so it is
modelled as packaging its two inputs. -/
structure NodeGetInfoResponse where
  agent_query_result : AgentQueryResult
  extra : Option AgentExtra
  deriving DecidableEq, Repr

/-- Modelled from the spec: response assembly for `node_getInfo`. -/
def NodeGetInfoResponse.from_db_state (q : AgentQueryResult)
    (e : Option AgentExtra) : NodeGetInfoResponse :=
  { agent_query_result := q, extra := e }

/-- A log entry (types.rs `Log`): {id, nodeName, level, target, timestamp,
message}.  The timestamp is an abstract clock reading. -/
structure Log where
  id : String
  node_name : String
  level : String
  target : String
  timestamp : Int
  message : String
  deriving DecidableEq, Repr

/-- Modelled from the spec: the `log_get` request, whose `itemPerPage` field
is optional (types.rs, not part of the sources). -/
structure LogGetRequest where
  item_per_page : Option Nat
  deriving DecidableEq, Repr

/-- The `log_get` response: a list of log entries. -/
structure LogGetResponse where
  logs : List Log
  deriving DecidableEq, Repr

/-- The `log_getTypes` response: a list of category strings. -/
structure LogGetTypesResponse where
  types : List String
  deriving DecidableEq, Repr

/-- api.rs `ping`: constant "pong", no effects. -/
def ping (_context : Context) : RPCResult String :=
  (Except.ok "pong", [])

/-- api.rs `dashboard_get_network` (lines 44-52): read agent states and
connections from the DB collaborator and map each into its presentation
shape, in collaborator order. -/
def dashboard_get_network (context : Context) :
    RPCResult DashboardGetNetworkResponse :=
  let agents_state := context.db_service.get_agents_state
  let connections := context.db_service.get_connections
  let dashboard_nodes := agents_state.map
    (fun agent => DashboardNode.from_db_state agent)
  (Except.ok
    { nodes := dashboard_nodes
      connections := connections.map
        (fun connection => NodeConnection.from_connection connection) }, [])

/-- api.rs `node_get_info` (lines 54-59): `get_agent_query_result(name)
.ok_or(AgentNotFound)?`, then read the extra and assemble the response. -/
def node_get_info (context : Context) (name : String) :
    RPCResult NodeGetInfoResponse :=
  match context.db_service.get_agent_query_result name with
  | none => (Except.error RPCError.AgentNotFound, [])
  | some agent_query_result =>
    let extra := context.db_service.get_agent_extra name
    (Except.ok (NodeGetInfoResponse.from_db_state agent_query_result extra), [])

/-- api.rs `node_start` (lines 61-74): resolve the agent (absence short
circuits with `AgentNotFound`), issue the remote start (propagating its error
with `?`), then `save_start_option(&name, &req.env, &req.args)`. -/
def node_start (context : Context) (name : String)
    (req : ShellStartCodeChainRequest) : RPCResult Unit :=
  match context.agent_service.get_agent name with
  | none => (Except.error RPCError.AgentNotFound, [])
  | some agent =>
    match agent.shell_start_codechain req with
    | Except.error e => (Except.error e, [Event.shellStart name req])
    | Except.ok _ =>
      (Except.ok (),
        [Event.shellStart name req,
         Event.saveStartOption name req.env req.args])

/-- api.rs `node_stop` (lines 76-87): resolve the agent, then issue the
remote stop, propagating its outcome. -/
def node_stop (context : Context) (name : String) : RPCResult Unit :=
  match context.agent_service.get_agent name with
  | none => (Except.error RPCError.AgentNotFound, [])
  | some agent =>
    match agent.shell_stop_codechain with
    | Except.error e => (Except.error e, [Event.shellStop name])
    | Except.ok _ => (Except.ok (), [Event.shellStop name])

/-- api.rs `node_update` (lines 89-106): resolve the agent, read the stored
extra, and issue the remote update with `prev_env`/`prev_args` — or the empty
string for either when no extra is stored — plus the commit hash. -/
def node_update (context : Context) (name : String) (commit_hash : String) :
    RPCResult Unit :=
  match context.agent_service.get_agent name with
  | none => (Except.error RPCError.AgentNotFound, [])
  | some agent =>
    let extra := context.db_service.get_agent_extra name
    let req : ShellUpdateCodeChainRequest :=
      { env := (extra.map (fun e => e.prev_env)).getD ""
        args := (extra.map (fun e => e.prev_args)).getD ""
        commit_hash := commit_hash }
    match agent.shell_update_codechain req with
    | Except.error e => (Except.error e, [Event.shellUpdate name req])
    | Except.ok _ => (Except.ok (), [Event.shellUpdate name req])

/-- api.rs `shell_get_codechain_log` (lines 108-119): resolve the agent, then
fetch the remote log text, propagating its outcome. -/
def shell_get_codechain_log (context : Context) (name : String) :
    RPCResult String :=
  match context.agent_service.get_agent name with
  | none => (Except.error RPCError.AgentNotFound, [])
  | some agent =>
    match agent.shell_get_codechain_log with
    | Except.error e => (Except.error e, [Event.shellGetLog name])
    | Except.ok result => (Except.ok result, [Event.shellGetLog name])

/-- api.rs `log_get_types` (lines 121-125): the constant three-element
category list, independent of the context. -/
def log_get_types (_context : Context) : RPCResult LogGetTypesResponse :=
  (Except.ok { types := ["miner", "tendermint", "engine"] }, [])

/-- The generation environment for dummy logs: a stream of random draws
(`rand::thread_rng`, consumed four per entry) and a clock stream
(`chrono::Local::now()` at each generation step). -/
structure GenEnv where
  rng : Nat → Nat
  clock : Nat → Int

/-- `rng.choose(&vec).unwrap()`: pick an element of a nonempty list,
indexed by the random draw reduced modulo the length. -/
def rngChoose (l : List String) (r : Nat) : String :=
  l.getD (r % l.length) ""

/-- api.rs `create_dummy_log` (lines 138-151): bump the thread-local id
counter, then build an entry whose node name, level, target and message are
random choices from fixed two-element lists and whose timestamp is the
current clock reading.  Returns the new counter value and the entry. -/
def create_dummy_log (env : GenEnv) (step : Nat) (counter : Int) :
    Int × Log :=
  let counter := counter + 1
  (counter,
    { id := toString counter
      node_name := rngChoose ["node1", "node2"] (env.rng (4 * step))
      level := rngChoose ["error", "warn"] (env.rng (4 * step + 1))
      target := rngChoose ["miner", "tendermint"] (env.rng (4 * step + 2))
      timestamp := env.clock step
      message := rngChoose ["Log example", "Log another example"]
        (env.rng (4 * step + 3)) })

/-- `(1..item_per_page).map(|_| create_dummy_log()).collect()` unrolled: run
`create_dummy_log` the given number of times, threading the counter and
advancing the generation step. -/
def genLogs (env : GenEnv) : Nat → Nat → Int → List Log × Int
  | 0, _, counter => ([], counter)
  | n + 1, step, counter =>
    let next := create_dummy_log env step counter
    let rest := genLogs env n (step + 1) next.1
    (next.2 :: rest.1, rest.2)

/-- api.rs `log_get` (lines 127-134): `item_per_page` defaults to 100 when
absent; the Rust range `1..item_per_page` has `item_per_page - 1` elements
(truncated at zero), so that many dummy entries are generated.  Returns the
handler outcome and the new counter value. -/
def log_get (env : GenEnv) (step : Nat) (counter : Int)
    (req : LogGetRequest) : RPCResult LogGetResponse × Int :=
  let item_per_page := req.item_per_page.getD 100
  let g := genLogs env (item_per_page - 1) step counter
  ((Except.ok { logs := g.1 }, []), g.2)

/-- Replay one traced event onto a DB store of StartOptions: only
`save_start_option` writes change it. -/
def applyEvent (db : String → Option AgentExtra) :
    Event → (String → Option AgentExtra)
  | Event.saveStartOption n e a =>
    fun m => if m = n then some { prev_env := e, prev_args := a } else db m
  | _ => db

/-- Replay a trace of events, in order, onto a DB store of StartOptions. -/
def applyEvents (db : String → Option AgentExtra) (evs : List Event) :
    String → Option AgentExtra :=
  evs.foldl applyEvent db

/-- Whether a trace contains any `save_start_option` write. -/
def hasSave (evs : List Event) : Bool :=
  evs.any (fun e => e.isSave)

/-- Whether a trace contains any remote shell command. -/
def hasRemote (evs : List Event) : Bool :=
  evs.any (fun e => e.isRemote)

/-- A concrete agent whose every shell command succeeds. -/
def agentOkW : Agent :=
  { shell_start_codechain := fun _ => Except.ok ()
    shell_stop_codechain := Except.ok ()
    shell_update_codechain := fun _ => Except.ok ()
    shell_get_codechain_log := Except.ok "log text" }

/-- A concrete agent whose every shell command fails with an AgentError. -/
def agentFailW : Agent :=
  { shell_start_codechain := fun _ => Except.error (RPCError.AgentError "boom")
    shell_stop_codechain := Except.error (RPCError.AgentError "boom")
    shell_update_codechain := fun _ => Except.error (RPCError.AgentError "boom")
    shell_get_codechain_log := Except.error (RPCError.AgentError "boom") }

/-- A concrete DB collaborator holding no data at all. -/
def dbEmptyW : DbService :=
  { get_agents_state := []
    get_connections := []
    get_agent_query_result := fun _ => none
    get_agent_extra := fun _ => none }

/-- A concrete context in which no name resolves to a live agent and the DB
holds nothing. -/
def ctxNoAgentW : Context :=
  { db_service := dbEmptyW
    agent_service := { get_agent := fun _ => none } }

/-- A concrete context in which every name resolves to the all-succeeding
agent and the DB holds no StartOption. -/
def ctxLiveW : Context :=
  { db_service := dbEmptyW
    agent_service := { get_agent := fun _ => some agentOkW } }

/-- A concrete context in which every name resolves to the all-failing
agent. -/
def ctxFailW : Context :=
  { db_service := dbEmptyW
    agent_service := { get_agent := fun _ => some agentFailW } }

/-- A concrete context in which the agent-service resolves no agent, yet the
DB collaborator does hold a query result for every name. -/
def ctxSplitW : Context :=
  { db_service :=
      { dbEmptyW with
        get_agent_query_result := fun _ => some { name := "n1", status := "Run" } }
    agent_service := { get_agent := fun _ => none } }

/-- C1 (amended): two independent conditionals.  Whenever the agent-service
resolves no agent for the name — regardless of what the DB collaborator
holds — node_start, node_stop, node_update and shell_getCodeChainLog each
return AgentNotFound with an empty effect trace (zero remote calls).  And
whenever the DB collaborator's getAgentQueryResult resolves nothing for the
name — regardless of whether an agent resolves — node_getInfo returns
AgentNotFound with an empty trace (it is the DB query result, not the
agent-service lookup, that node_getInfo checks). -/
theorem agent_missing_short_circuits (ctx : Context)
    (name commit_hash : String) (req : ShellStartCodeChainRequest) :
    (ctx.agent_service.get_agent name = none →
      node_start ctx name req = (Except.error RPCError.AgentNotFound, []) ∧
      node_stop ctx name = (Except.error RPCError.AgentNotFound, []) ∧
      node_update ctx name commit_hash =
        (Except.error RPCError.AgentNotFound, []) ∧
      shell_get_codechain_log ctx name =
        (Except.error RPCError.AgentNotFound, [])) ∧
    (ctx.db_service.get_agent_query_result name = none →
      node_get_info ctx name = (Except.error RPCError.AgentNotFound, [])) := by
  constructor
  · intro hagent
    refine ⟨?_, ?_, ?_, ?_⟩ <;>
      simp [node_start, node_stop, node_update, shell_get_codechain_log,
        hagent]
  · intro hq
    simp [node_get_info, hq]

/-- C1 witness, exercising each conditional in the case the other's
hypothesis fails: in the split context (no agent resolves, a DB query row
exists for every name) the four command handlers short-circuit with
AgentNotFound and an empty trace; and in the live context (every name
resolves to an agent, no DB query row) node_getInfo returns AgentNotFound
with an empty trace. -/
theorem agent_missing_short_circuits_witness :
    (node_start ctxSplitW "n1" { env := "E", args := "A", target := "T" } =
      (Except.error RPCError.AgentNotFound, []) ∧
     node_stop ctxSplitW "n1" = (Except.error RPCError.AgentNotFound, []) ∧
     node_update ctxSplitW "n1" "deadbeef" =
      (Except.error RPCError.AgentNotFound, []) ∧
     shell_get_codechain_log ctxSplitW "n1" =
      (Except.error RPCError.AgentNotFound, [])) ∧
    node_get_info ctxLiveW "n1" =
      (Except.error RPCError.AgentNotFound, []) :=
  ⟨(agent_missing_short_circuits ctxSplitW "n1" "deadbeef"
      { env := "E", args := "A", target := "T" }).1 rfl,
   (agent_missing_short_circuits ctxLiveW "n1" "deadbeef"
      { env := "E", args := "A", target := "T" }).2 rfl⟩

/-- C1 counterexample: a context whose agent-service resolves no agent for
"n1" (getAgent returns None), yet node_getInfo does not return AgentNotFound,
because it consults the DB collaborator's getAgentQueryResult — which here
returns a row — rather than the agent-service. -/
theorem node_get_info_ignores_agent_service :
    ctxSplitW.agent_service.get_agent "n1" = none ∧
    (node_get_info ctxSplitW "n1").1 ≠ Except.error RPCError.AgentNotFound := by
  refine ⟨rfl, ?_⟩
  intro h
  exact Except.noConfusion h

/-- C2: with the agent resolved, node_start persists the StartOption iff the
remote start succeeds: on success it issues the remote start and then saves
exactly the request's env and args; on remote failure the error propagates
unchanged and no save event is issued. -/
theorem node_start_persist_iff_success (ctx : Context) (name : String)
    (req : ShellStartCodeChainRequest) (a : Agent)
    (h : ctx.agent_service.get_agent name = some a) :
    (a.shell_start_codechain req = Except.ok () →
      node_start ctx name req =
        (Except.ok (),
          [Event.shellStart name req,
           Event.saveStartOption name req.env req.args])) ∧
    (∀ e, a.shell_start_codechain req = Except.error e →
      node_start ctx name req =
        (Except.error e, [Event.shellStart name req])) := by
  constructor
  · intro hok
    simp [node_start, h, hok]
  · intro e herr
    simp [node_start, h, herr]

/-- C2 witness: a successful concrete start saves exactly the request's env
and args after the remote call, and a failing concrete start propagates the
remote error with no save event. -/
theorem node_start_persist_iff_success_witness :
    node_start ctxLiveW "n1" { env := "E", args := "A", target := "T" } =
      (Except.ok (),
        [Event.shellStart "n1" { env := "E", args := "A", target := "T" },
         Event.saveStartOption "n1" "E" "A"]) ∧
    node_start ctxFailW "n1" { env := "E", args := "A", target := "T" } =
      (Except.error (RPCError.AgentError "boom"),
        [Event.shellStart "n1" { env := "E", args := "A", target := "T" }]) :=
  ⟨(node_start_persist_iff_success ctxLiveW "n1"
      { env := "E", args := "A", target := "T" } agentOkW rfl).1 rfl,
   (node_start_persist_iff_success ctxFailW "n1"
      { env := "E", args := "A", target := "T" } agentFailW rfl).2
      (RPCError.AgentError "boom") rfl⟩

/-- C4: with the agent resolved and no stored StartOption for the name,
node_update does not fail on the missing option: it issues the remote update
with empty env and args plus the given commit hash, and its result is exactly
the remote call's outcome. -/
theorem node_update_empty_fallback (ctx : Context)
    (name commit_hash : String) (a : Agent)
    (h1 : ctx.agent_service.get_agent name = some a)
    (h2 : ctx.db_service.get_agent_extra name = none) :
    (node_update ctx name commit_hash).2 =
      [Event.shellUpdate name
        { env := "", args := "", commit_hash := commit_hash }] ∧
    (node_update ctx name commit_hash).1 =
      a.shell_update_codechain
        { env := "", args := "", commit_hash := commit_hash } := by
  cases hr : a.shell_update_codechain
      { env := "", args := "", commit_hash := commit_hash } <;>
    simp [node_update, h1, h2, hr]

/-- C4 witness: in the concrete live context with an empty DB, node_update
issues the update with empty env/args and the given hash and succeeds. -/
theorem node_update_empty_fallback_witness :
    (node_update ctxLiveW "n1" "deadbeef").2 =
      [Event.shellUpdate "n1"
        { env := "", args := "", commit_hash := "deadbeef" }] ∧
    (node_update ctxLiveW "n1" "deadbeef").1 =
      agentOkW.shell_update_codechain
        { env := "", args := "", commit_hash := "deadbeef" } :=
  node_update_empty_fallback ctxLiveW "n1" "deadbeef" agentOkW rfl rfl

/-- C6: dashboard_getNetwork succeeds for every context, mapping each agent
state to one presentation node and each connection to one presentation
connection in collaborator order; with empty collaborator data the result is
the pair of empty sequences, never an absent value and never an error. -/
theorem dashboard_get_network_maps (ctx : Context) :
    dashboard_get_network ctx =
      (Except.ok
        { nodes :=
            ctx.db_service.get_agents_state.map DashboardNode.from_db_state
          connections :=
            ctx.db_service.get_connections.map
              NodeConnection.from_connection }, []) ∧
    (ctx.db_service.get_agents_state = [] →
      ctx.db_service.get_connections = [] →
      dashboard_get_network ctx =
        (Except.ok { nodes := [], connections := [] }, [])) := by
  constructor
  · rfl
  · intro h1 h2
    simp [dashboard_get_network, h1, h2]

/-- C6 witness: on the concrete context with no agents and no connections,
dashboard_getNetwork returns the pair of empty sequences. -/
theorem dashboard_get_network_maps_witness :
    dashboard_get_network ctxNoAgentW =
      (Except.ok { nodes := [], connections := [] }, []) :=
  (dashboard_get_network_maps ctxNoAgentW).2 rfl rfl

/-- C7: log_getTypes returns the same fixed three-element category list for
every context, independent of all collaborator data. -/
theorem log_get_types_constant (ctx : Context) :
    log_get_types ctx =
      (Except.ok { types := ["miner", "tendermint", "engine"] }, []) := rfl

/-- Replaying the trace of a successful node_start stores exactly the
request's env and args as that node's StartOption. -/
theorem applyEvents_node_start (ctx : Context) (name : String)
    (req : ShellStartCodeChainRequest) (a : Agent)
    (db : String → Option AgentExtra)
    (h1 : ctx.agent_service.get_agent name = some a)
    (h2 : a.shell_start_codechain req = Except.ok ()) :
    applyEvents db (node_start ctx name req).2 name =
      some { prev_env := req.env, prev_args := req.args } := by
  simp [node_start, h1, h2, applyEvents, applyEvent]

/-- A concrete context holding the StartOption {E, A} for node "n1" and
resolving every name to the all-succeeding agent. -/
def ctxStoredW : Context :=
  { db_service :=
      { dbEmptyW with
        get_agent_extra := fun m =>
          if m = "n1" then some { prev_env := "E", prev_args := "A" }
          else none }
    agent_service := { get_agent := fun _ => some agentOkW } }

/-- C3: a successful node_start with env E, args A and any target, followed
by node_update with hash H on the same name — with the agent still
resolvable and the update context's stored extra equal to the replayed
StartOption written by the start — issues exactly one remote update carrying
env E, args A and commit hash H. -/
theorem start_then_update_replays (ctx ctx2 : Context)
    (name env_v args_v target_v commit_hash : String) (a a2 : Agent)
    (db : String → Option AgentExtra)
    (h1 : ctx.agent_service.get_agent name = some a)
    (h2 : a.shell_start_codechain
      { env := env_v, args := args_v, target := target_v } = Except.ok ())
    (h3 : ctx2.agent_service.get_agent name = some a2)
    (h4 : ctx2.db_service.get_agent_extra name =
      applyEvents db
        (node_start ctx name
          { env := env_v, args := args_v, target := target_v }).2 name) :
    (node_update ctx2 name commit_hash).2 =
      [Event.shellUpdate name
        { env := env_v, args := args_v, commit_hash := commit_hash }] := by
  have hstored := applyEvents_node_start ctx name
    { env := env_v, args := args_v, target := target_v } a db h1 h2
  rw [hstored] at h4
  cases hr : a2.shell_update_codechain
      { env := env_v, args := args_v, commit_hash := commit_hash } <;>
    simp [node_update, h3, h4, hr]

/-- C3 witness: starting "n1" with env "E", args "A" in the live context
writes the StartOption that the stored context exposes, and the subsequent
update on "n1" with hash "deadbeef" issues exactly the update command with
env "E", args "A" and that hash. -/
theorem start_then_update_replays_witness :
    (node_update ctxStoredW "n1" "deadbeef").2 =
      [Event.shellUpdate "n1"
        { env := "E", args := "A", commit_hash := "deadbeef" }] :=
  start_then_update_replays ctxLiveW ctxStoredW "n1" "E" "A" "T" "deadbeef"
    agentOkW agentOkW (fun _ => none) rfl rfl rfl (by decide)

/-- genLogs produces exactly the requested number of entries. -/
theorem genLogs_length (env : GenEnv) :
    ∀ (n step : Nat) (counter : Int),
      ((genLogs env n step counter).1).length = n := by
  intro n
  induction n with
  | zero => intro step counter; rfl
  | succ k ih =>
    intro step counter
    simp [genLogs, ih]

/-- C5: log_get with itemPerPage present and equal to n succeeds with exactly
n - 1 entries (natural-number subtraction: the Rust range 1..n), and log_get
with itemPerPage absent uses the default of 100, hence 99 entries. -/
theorem log_get_entry_count (env : GenEnv) (step : Nat) (counter : Int)
    (n : Nat) :
    (∃ r, (log_get env step counter { item_per_page := some n }).1.1 =
        Except.ok r ∧ r.logs.length = n - 1) ∧
    (∃ r, (log_get env step counter { item_per_page := none }).1.1 =
        Except.ok r ∧ r.logs.length = 99) := by
  constructor
  · exact ⟨_, rfl, by simp [genLogs_length]⟩
  · exact ⟨_, rfl, by simp [genLogs_length]⟩

/-- C8: log_get with itemPerPage at most 1 (including 0 and 1) succeeds and
returns the empty entry list: the generation range is empty. -/
theorem log_get_small_empty (env : GenEnv) (step : Nat) (counter : Int)
    (n : Nat) (h : n ≤ 1) :
    ∃ r, (log_get env step counter { item_per_page := some n }).1.1 =
      Except.ok r ∧ r.logs = [] := by
  have h0 : n - 1 = 0 := Nat.sub_eq_zero_of_le h
  refine ⟨_, rfl, ?_⟩
  simp [h0, genLogs]

/-- A concrete generation environment: the random stream is constantly zero
and the clock is constantly zero. -/
def envW : GenEnv := { rng := fun _ => 0, clock := fun _ => 0 }

/-- C8 witness: itemPerPage 0 yields a successful empty log list. -/
theorem log_get_small_empty_witness :
    ∃ r, (log_get envW 0 0 { item_per_page := some 0 }).1.1 =
      Except.ok r ∧ r.logs = [] :=
  log_get_small_empty envW 0 0 0 (by decide)

/-- node_stop issues no save event in any context. -/
theorem node_stop_no_save (ctx : Context) (name : String) :
    hasSave (node_stop ctx name).2 = false := by
  unfold node_stop
  split
  · rfl
  · split <;> rfl

/-- node_update issues no save event in any context. -/
theorem node_update_no_save (ctx : Context) (name commit_hash : String) :
    hasSave (node_update ctx name commit_hash).2 = false := by
  unfold node_update
  split
  · rfl
  · dsimp only
    split <;> rfl

/-- node_getInfo issues no save event in any context. -/
theorem node_get_info_no_save (ctx : Context) (name : String) :
    hasSave (node_get_info ctx name).2 = false := by
  unfold node_get_info
  split <;> rfl

/-- shell_getCodeChainLog issues no save event in any context. -/
theorem shell_get_codechain_log_no_save (ctx : Context) (name : String) :
    hasSave (shell_get_codechain_log ctx name).2 = false := by
  unfold shell_get_codechain_log
  split
  · rfl
  · split <;> rfl

/-- Replaying a trace without save events leaves every stored StartOption
unchanged. -/
theorem applyEvents_no_save (evs : List Event) :
    ∀ (db : String → Option AgentExtra), hasSave evs = false →
      ∀ m, applyEvents db evs m = db m := by
  induction evs with
  | nil => intro db _ m; rfl
  | cons e tl ih =>
    intro db h m
    have h' : Event.isSave e = false ∧ hasSave tl = false := by
      simpa [hasSave] using h
    have he : applyEvent db e = db := by
      cases e <;> first | rfl | simp [Event.isSave] at h'
    calc applyEvents (applyEvent db e) tl m
        = applyEvents db tl m := by rw [he]
      _ = db m := ih db h'.2 m

/-- The StartOption of every node other than the one being started is
unchanged by replaying a node_start trace. -/
theorem node_start_other_unchanged (ctx : Context) (name : String)
    (sreq : ShellStartCodeChainRequest) (db : String → Option AgentExtra)
    (m : String) (hm : m ≠ name) :
    applyEvents db (node_start ctx name sreq).2 m = db m := by
  unfold node_start
  split
  · rfl
  · split
    · rfl
    · simp [applyEvents, applyEvent, hm]

/-- C9: node_start is the only operation that writes through the DB
collaborator: node_stop, node_update, node_getInfo, shell_getCodeChainLog,
dashboard_getNetwork, log_get and log_getTypes issue no saveStartOption
event, so replaying any of their traces leaves every stored StartOption
unchanged; and replaying a node_start trace leaves the StartOption of every
other node unchanged. -/
theorem save_start_option_frame (ctx : Context)
    (name commit_hash m : String) (sreq : ShellStartCodeChainRequest)
    (req : LogGetRequest) (env : GenEnv) (step : Nat) (counter : Int)
    (db : String → Option AgentExtra) :
    hasSave (node_stop ctx name).2 = false ∧
    hasSave (node_update ctx name commit_hash).2 = false ∧
    hasSave (node_get_info ctx name).2 = false ∧
    hasSave (shell_get_codechain_log ctx name).2 = false ∧
    hasSave (dashboard_get_network ctx).2 = false ∧
    hasSave ((log_get env step counter req).1).2 = false ∧
    hasSave (log_get_types ctx).2 = false ∧
    applyEvents db (node_stop ctx name).2 m = db m ∧
    applyEvents db (node_update ctx name commit_hash).2 m = db m ∧
    applyEvents db (node_get_info ctx name).2 m = db m ∧
    applyEvents db (shell_get_codechain_log ctx name).2 m = db m ∧
    (m ≠ name → applyEvents db (node_start ctx name sreq).2 m = db m) :=
  ⟨node_stop_no_save ctx name,
   node_update_no_save ctx name commit_hash,
   node_get_info_no_save ctx name,
   shell_get_codechain_log_no_save ctx name,
   rfl, rfl, rfl,
   applyEvents_no_save _ db (node_stop_no_save ctx name) m,
   applyEvents_no_save _ db (node_update_no_save ctx name commit_hash) m,
   applyEvents_no_save _ db (node_get_info_no_save ctx name) m,
   applyEvents_no_save _ db (shell_get_codechain_log_no_save ctx name) m,
   fun hm => node_start_other_unchanged ctx name sreq db m hm⟩

/-- C9 witness: in the concrete live context, node_stop saves nothing, and a
node_start of "n1" leaves the (empty) StartOption of "m2" unchanged. -/
theorem save_start_option_frame_witness :
    hasSave (node_stop ctxLiveW "n1").2 = false ∧
    applyEvents (fun _ => none)
      (node_start ctxLiveW "n1"
        { env := "E", args := "A", target := "T" }).2 "m2" = none := by
  have h := save_start_option_frame ctxLiveW "n1" "deadbeef" "m2"
    { env := "E", args := "A", target := "T" }
    { item_per_page := some 2 } envW 0 0 (fun _ => none)
  exact ⟨h.1, h.2.2.2.2.2.2.2.2.2.2.2 (by decide)⟩

/-- rng.choose on a two-element list yields one of the two elements, for
every random draw. -/
theorem rngChoose_pair (x y : String) (r : Nat) :
    rngChoose [x, y] r = x ∨ rngChoose [x, y] r = y := by
  rcases Nat.mod_two_eq_zero_or_one r with h | h <;>
    simp [rngChoose, h]

/-- Every entry generated by genLogs draws its node name, level and target
from the fixed two-element lists of create_dummy_log, whatever the random
stream, clock, step and counter. -/
theorem genLogs_mem (env : GenEnv) :
    ∀ (n step : Nat) (counter : Int) (log : Log),
      log ∈ (genLogs env n step counter).1 →
      (log.node_name = "node1" ∨ log.node_name = "node2") ∧
      (log.level = "error" ∨ log.level = "warn") ∧
      (log.target = "miner" ∨ log.target = "tendermint") := by
  intro n
  induction n with
  | zero =>
    intro step counter log h
    simp [genLogs] at h
  | succ k ih =>
    intro step counter log h
    have h' : log = (create_dummy_log env step counter).2 ∨
        log ∈ (genLogs env k (step + 1)
          (create_dummy_log env step counter).1).1 :=
      List.mem_cons.1 h
    rcases h' with h' | h'
    · subst h'
      exact ⟨rngChoose_pair "node1" "node2" _,
        rngChoose_pair "error" "warn" _,
        rngChoose_pair "miner" "tendermint" _⟩
    · exact ih (step + 1) _ log h'

/-- C10: every entry returned by log_get — for every random stream, clock,
step, counter and request — has node name in {node1, node2}, level in
{error, warn} and target in {miner, tendermint}; in particular the target is
never "engine", so generated targets form a strict subset of the three
categories advertised by log_getTypes. -/
theorem log_entries_in_fixed_sets (env : GenEnv) (step : Nat) (counter : Int)
    (req : LogGetRequest) (ctx : Context) (r : LogGetResponse)
    (hr : (log_get env step counter req).1.1 = Except.ok r)
    (log : Log) (hlog : log ∈ r.logs) :
    (log.node_name = "node1" ∨ log.node_name = "node2") ∧
    (log.level = "error" ∨ log.level = "warn") ∧
    (log.target = "miner" ∨ log.target = "tendermint") ∧
    log.target ≠ "engine" ∧
    ∃ tys, (log_get_types ctx).1 = Except.ok tys ∧
      log.target ∈ tys.types ∧ "engine" ∈ tys.types := by
  have hG : ({ logs :=
      (genLogs env (req.item_per_page.getD 100 - 1) step counter).1 } :
        LogGetResponse) = r :=
    Except.ok.inj hr
  subst hG
  obtain ⟨h1, h2, h3⟩ :=
    genLogs_mem env (req.item_per_page.getD 100 - 1) step counter log hlog
  refine ⟨h1, h2, h3, ?_, ?_⟩
  · rcases h3 with h | h <;> rw [h] <;> decide
  · refine ⟨{ types := ["miner", "tendermint", "engine"] }, rfl, ?_, ?_⟩
    · rcases h3 with h | h <;> rw [h] <;> decide
    · decide

/-- The concrete first entry generated in the constant-zero environment. -/
def logW : Log := (create_dummy_log envW 0 0).2

/-- C10 witness: the concrete entry generated by log_get with itemPerPage 2
in the constant-zero environment satisfies all the field constraints. -/
theorem log_entries_in_fixed_sets_witness :
    (logW.node_name = "node1" ∨ logW.node_name = "node2") ∧
    (logW.level = "error" ∨ logW.level = "warn") ∧
    (logW.target = "miner" ∨ logW.target = "tendermint") ∧
    logW.target ≠ "engine" ∧
    ∃ tys, (log_get_types ctxLiveW).1 = Except.ok tys ∧
      logW.target ∈ tys.types ∧ "engine" ∈ tys.types :=
  log_entries_in_fixed_sets envW 0 0 { item_per_page := some 2 } ctxLiveW
    { logs := [logW] } rfl logW (List.mem_singleton.2 rfl)

end AgentHub
